import Mathlib

/-!
# GrantReady Analytics — verification of the metrics & compliance core

Shallow embedding of the grant metrics and compliance evaluation layer:

* `src/models/Grant.ts` — the `Grant` entity, its owned collections and its
  mutation methods (`addMilestone`, `addExpenditure`, `updateStatus`);
* `src/metrics/GrantMetrics.ts` — `calculateProgress`, `calculateRiskLevel`,
  `calculateKPIAchievement`;
* `src/metrics/ComplianceMetrics.ts` — `assessCompliance`,
  `evaluateRequirement` and the four per-type checkers.

Modelling conventions:

* JavaScript `number` values are modelled as exact rationals (`ℚ`).  Where the
  source can produce the non-finite values `NaN`/`Infinity` (division whose
  denominator may be `0`), the result is modelled by the type `JSNum`, which
  adjoins `nan`, `posInf` and `negInf` to `ℚ` and implements JavaScript's
  comparison semantics (`NaN` compares false).  The negative zero of IEEE-754
  is identified with `0`.
* `Date` values are modelled by their `getTime()` value (epoch milliseconds)
  as a rational, type `JSDate`.  Methods that call `new Date()` take the
  current instant as an explicit `now` argument.
* TypeScript methods that can throw are embedded in `Except String`; a body
  with no `throw` statement yields `.ok` on every path.
* `Record<string, number>` objects are modelled as association lists updated
  by `recordSet` (assignment to an existing key overwrites in place, a new
  key is appended), so `List.lookup` agrees with JavaScript property reads.
* Evidence strings pushed by the compliance checkers are modelled as a
  structured inductive `Evidence` with one constructor per `push` site in the
  source, carrying the interpolated data; no claim inspects their rendered
  text, only their presence, count and order.
-/

/-- A JavaScript `Date`, identified with its `getTime()` epoch-millisecond
value. -/
abbrev JSDate := ℚ

/-- A JavaScript `number` that may be non-finite: an exact rational together
with `NaN` and the two infinities (IEEE-754 negative zero is identified with
`0`). -/
inductive JSNum where
  | nan : JSNum
  | posInf : JSNum
  | negInf : JSNum
  | num : ℚ → JSNum
deriving DecidableEq, Repr

/-- JavaScript division of two finite numbers: `a / 0` is `Infinity`,
`-Infinity` or `NaN` according to the sign of `a`. -/
def jsDiv (a b : ℚ) : JSNum :=
  if b = 0 then
    if a > 0 then .posInf else if a < 0 then .negInf else .nan
  else .num (a / b)

/-- JavaScript division on possibly non-finite numbers. -/
def jsDivJS : JSNum → JSNum → JSNum
  | .nan, _ => .nan
  | _, .nan => .nan
  | .posInf, .posInf => .nan
  | .posInf, .negInf => .nan
  | .negInf, .posInf => .nan
  | .negInf, .negInf => .nan
  | .posInf, .num b => if b < 0 then .negInf else .posInf
  | .negInf, .num b => if b < 0 then .posInf else .negInf
  | .num _, .posInf => .num 0
  | .num _, .negInf => .num 0
  | .num a, .num b => jsDiv a b

/-- JavaScript subtraction on possibly non-finite numbers. -/
def jsSubJS : JSNum → JSNum → JSNum
  | .nan, _ => .nan
  | _, .nan => .nan
  | .posInf, .posInf => .nan
  | .posInf, _ => .posInf
  | .negInf, .negInf => .nan
  | .negInf, _ => .negInf
  | .num _, .posInf => .negInf
  | .num _, .negInf => .posInf
  | .num a, .num b => .num (a - b)

/-- JavaScript addition on possibly non-finite numbers. -/
def jsAddJS : JSNum → JSNum → JSNum
  | .nan, _ => .nan
  | _, .nan => .nan
  | .posInf, .negInf => .nan
  | .negInf, .posInf => .nan
  | .posInf, _ => .posInf
  | _, .posInf => .posInf
  | .negInf, _ => .negInf
  | _, .negInf => .negInf
  | .num a, .num b => .num (a + b)

/-- JavaScript `Math.abs`. -/
def jsAbs : JSNum → JSNum
  | .nan => .nan
  | .posInf => .posInf
  | .negInf => .posInf
  | .num a => .num |a|

/-- JavaScript strict `<`: any comparison involving `NaN` is `false`. -/
def jsLtJS : JSNum → JSNum → Bool
  | .nan, _ => false
  | _, .nan => false
  | .negInf, .negInf => false
  | .negInf, _ => true
  | _, .negInf => false
  | .posInf, _ => false
  | .num _, .posInf => true
  | .num a, .num b => decide (a < b)

/-- JavaScript strict `>` (`a > b` behaves as `b < a`, `NaN` compares
false). -/
def jsGtJS (a b : JSNum) : Bool := jsLtJS b a

/-- JavaScript `Math.max` of two arguments: `NaN` if either argument is
`NaN`. -/
def jsMax : JSNum → JSNum → JSNum
  | .nan, _ => .nan
  | _, .nan => .nan
  | .posInf, _ => .posInf
  | _, .posInf => .posInf
  | .negInf, b => b
  | a, .negInf => a
  | .num a, .num b => .num (max a b)

/-- JavaScript `Math.min` of two arguments: `NaN` if either argument is
`NaN`. -/
def jsMin : JSNum → JSNum → JSNum
  | .nan, _ => .nan
  | _, .nan => .nan
  | .negInf, _ => .negInf
  | _, .negInf => .negInf
  | .posInf, b => b
  | a, .posInf => a
  | .num a, .num b => .num (min a b)

/-- The JavaScript `x || d` default idiom on an optional numeric parameter:
`undefined` and the falsy number `0` both fall back to the default `d`. -/
def falsyOrQ (o : Option ℚ) (d : ℚ) : ℚ :=
  match o with
  | none => d
  | some v => if v = 0 then d else v

/-- `Record<string, ℚ>` assignment: overwrite the value at an existing key in
place, append a fresh key at the end (JavaScript property-insertion order). -/
def recordSet : List (String × ℚ) → String → ℚ → List (String × ℚ)
  | [], k, v => [(k, v)]
  | (k₀, v₀) :: rest, k, v =>
    if k₀ = k then (k, v) :: rest else (k₀, v₀) :: recordSet rest k v

/-! ## Data model (`src/models/Grant.ts`) -/

/-- `GrantStatus` union type. -/
inductive GrantStatus where
  | draft | submitted | underReview | approved | active
  | suspended | completed | terminated | closed
deriving DecidableEq, Repr

/-- `GrantType` union type. -/
inductive GrantType where
  | federal | state | local | foundation | corporate | international
deriving DecidableEq, Repr

/-- `Organization.type` union (`private` of the source is `privateOrg` here;
`private` is a keyword in Lean). -/
inductive OrgType where
  | nonProfit | government | academic | privateOrg
deriving DecidableEq, Repr

/-- `Address` interface. -/
structure Address where
  street : String
  city : String
  state : String
  postalCode : String
  country : String
deriving DecidableEq, Repr

/-- `Contact` interface. -/
structure Contact where
  name : String
  email : String
  phone : String
  role : String
deriving DecidableEq, Repr

/-- `Organization` interface. -/
structure Organization where
  id : String
  name : String
  orgType : OrgType
  taxId : Option String
  address : Address
  contact : Contact
  registrationDate : JSDate
deriving DecidableEq, Repr

/-- `Milestone.status` union. -/
inductive MilestoneStatus where
  | pending | inProgress | completed | delayed
deriving DecidableEq, Repr

/-- `Milestone` interface. -/
structure Milestone where
  id : String
  name : String
  description : String
  dueDate : JSDate
  completionDate : Option JSDate
  status : MilestoneStatus
  deliverables : List String
  dependencies : Option (List String)
deriving DecidableEq, Repr

/-- `Expenditure.status` union. -/
inductive ExpenditureStatus where
  | pending | approved | rejected
deriving DecidableEq, Repr

/-- `Expenditure` interface. -/
structure Expenditure where
  id : String
  date : JSDate
  category : String
  description : String
  amount : ℚ
  receiptUrl : Option String
  status : ExpenditureStatus
  approvedBy : Option String
  approvedDate : Option JSDate
deriving DecidableEq, Repr

/-- `Document.status` union. -/
inductive DocumentStatus where
  | pending | reviewed | approved | rejected
deriving DecidableEq, Repr

/-- `Document` interface.  The field `type` of the source is `docType` here
(`type` is a keyword in Lean). -/
structure Document where
  id : String
  docType : String
  name : String
  url : String
  uploadDate : JSDate
  uploadedBy : String
  status : DocumentStatus
  reviewNotes : Option String
deriving DecidableEq, Repr

/-- `ComplianceRequirement.type` union. -/
inductive RequirementType where
  | docs | financial | reporting | performance
deriving DecidableEq, Repr

/-- `ComplianceRequirement.severity` union. -/
inductive Severity where
  | high | medium | low
deriving DecidableEq, Repr

/-- The `parameters: Record<string, any>` bag of a `ComplianceRequirement`,
restricted to the four keys the compliance evaluators read
(`requiredDocuments`, `maxUtilizationRate`, `reportType`,
`minAchievementRate`); a key not set in the bag is `none`. -/
structure ReqParameters where
  requiredDocuments : Option (List String)
  maxUtilizationRate : Option ℚ
  reportType : Option String
  minAchievementRate : Option ℚ
deriving DecidableEq, Repr

/-- `ComplianceRequirement` interface.  The source field `type` is `reqType`
here. -/
structure ComplianceRequirement where
  id : String
  name : String
  description : String
  reqType : RequirementType
  severity : Severity
  applicableFrom : Option JSDate
  dueDate : Option JSDate
  parameters : Option ReqParameters
deriving DecidableEq, Repr

/-- `ReportSubmission.status` union. -/
inductive ReportStatus where
  | draft | submitted | reviewed
deriving DecidableEq, Repr

/-- `ReportSubmission` interface.  The source field `type` is `repType`
here. -/
structure ReportSubmission where
  id : String
  repType : String
  period : String
  submissionDate : JSDate
  submittedBy : String
  status : ReportStatus
  url : Option String
  notes : Option String
deriving DecidableEq, Repr

/-- Modelled from the spec: the `KPI` model (`src/models/KPI.ts` is not in the
provided sources; the spec describes a KPI as a named metric with a
`targetValue` and a `currentValue`, and `calculateKPIAchievement` reads
exactly the fields `name`, `targetValue` and `currentValue`). -/
structure KPI where
  name : String
  targetValue : ℚ
  currentValue : ℚ
deriving DecidableEq, Repr

/-- `Grant.reportingFrequency` union. -/
inductive ReportingFrequency where
  | monthly | quarterly | semiAnnual | annual
deriving DecidableEq, Repr

/-- The `changes: Record<string, any>` payload of an audit-history entry.
The only history-writing site in the source (`updateStatus`) stores
`{ status: { from: oldStatus, to: newStatus } }`. -/
inductive ChangeRecord where
  | statusChange (fromStatus toStatus : GrantStatus)
deriving DecidableEq, Repr

/-- One entry of `Grant.history`. -/
structure HistoryEntry where
  date : JSDate
  action : String
  user : String
  changes : ChangeRecord
deriving DecidableEq, Repr

/-- The `Grant` class (fields only; the constructor's defaulting of absent
input data is not needed by any claim, so grants are built as plain
records). -/
structure Grant where
  id : String
  grantNumber : String
  title : String
  description : String
  grantType : GrantType
  status : GrantStatus
  totalFunding : ℚ
  awardedAmount : ℚ
  matchingRequirement : Option ℚ
  fundingSource : String
  grantManager : String
  applicationDate : JSDate
  awardDate : JSDate
  startDate : JSDate
  endDate : JSDate
  reportingFrequency : ReportingFrequency
  recipient : Organization
  grantor : Organization
  objectives : List String
  targetBeneficiaries : String
  geographicScope : String
  milestones : List Milestone
  expenditures : List Expenditure
  kpis : List KPI
  documents : List Document
  reports : List ReportSubmission
  complianceRequirements : List ComplianceRequirement
  createdBy : String
  createdAt : JSDate
  updatedBy : String
  updatedAt : JSDate
  version : ℚ
  tags : List String
  history : List HistoryEntry
deriving DecidableEq, Repr

/-! ## Grant mutation methods (`src/models/Grant.ts`, lines 200–225)

Each method mutates `this` in place in the source; it is embedded as a
function from the old `Grant` state to the new one, with the `new Date()`
call passed in as `now`. -/

/-- `Grant.addMilestone`: push the milestone, touch `updatedAt`, bump
`version`.  (The source appends no history entry here.) -/
def Grant.addMilestone (g : Grant) (milestone : Milestone) (now : JSDate) : Grant :=
  { g with
    milestones := g.milestones ++ [milestone]
    updatedAt := now
    version := g.version + 1 }

/-- `Grant.addExpenditure`: push the expenditure, touch `updatedAt`, bump
`version`.  (The source appends no history entry here.) -/
def Grant.addExpenditure (g : Grant) (expenditure : Expenditure) (now : JSDate) : Grant :=
  { g with
    expenditures := g.expenditures ++ [expenditure]
    updatedAt := now
    version := g.version + 1 }

/-- `Grant.updateStatus`: set the new status, touch `updatedBy`/`updatedAt`,
bump `version`, and push one `STATUS_CHANGE` history entry recording the old
and new status. -/
def Grant.updateStatus (g : Grant) (newStatus : GrantStatus) (user : String)
    (now : JSDate) : Grant :=
  { g with
    status := newStatus
    updatedBy := user
    updatedAt := now
    version := g.version + 1
    history := g.history ++
      [{ date := now, action := "STATUS_CHANGE", user := user
         changes := ChangeRecord.statusChange g.status newStatus }] }

/-! ## Progress metrics calculator (`src/metrics/GrantMetrics.ts`) -/

/-- The `riskLevel` union `'low' | 'medium' | 'high'`. -/
inductive RiskLevel where
  | low | medium | high
deriving DecidableEq, Repr

/-- The `GrantProgressMetrics` interface.  Fields whose source expression is
guarded against a zero denominator are exact rationals; `timelineProgress` is
a `JSNum` because `totalDays` can be `0` (its division then yields `NaN`). -/
structure GrantProgressMetrics where
  grantId : String
  totalFunding : ℚ
  fundsUtilized : ℚ
  utilizationRate : ℚ
  milestonesCompleted : ℕ
  totalMilestones : ℕ
  milestoneCompletionRate : ℚ
  daysElapsed : ℤ
  totalDays : ℤ
  timelineProgress : JSNum
  status : GrantStatus
  riskLevel : RiskLevel
  kpiAchievement : List (String × ℚ)
  lastUpdated : JSDate
deriving DecidableEq, Repr

/-- `GrantMetrics.calculateRiskLevel` (lines 71–85): average the deviation of
`timelineProgress` from the milestone completion rate and from the
utilization rate, then classify by the `0.2`/`0.4` thresholds. -/
def calculateRiskLevel (timelineProgress utilizationRate milestoneCompletionRate : JSNum) :
    RiskLevel :=
  let timelineVsMilestoneDiff := jsAbs (jsSubJS timelineProgress milestoneCompletionRate)
  let timelineVsFinancialDiff := jsAbs (jsSubJS timelineProgress utilizationRate)
  let riskScore := jsDivJS (jsAddJS timelineVsMilestoneDiff timelineVsFinancialDiff) (.num 2)
  if jsLtJS riskScore (.num (2/10)) then .low
  else if jsLtJS riskScore (.num (4/10)) then .medium
  else .high

/-- The `for (const kpi of kpis)` loop of `calculateKPIAchievement`, with the
accumulated record threaded explicitly. -/
def kpiLoop : List KPI → List (String × ℚ) → List (String × ℚ)
  | [], achievement => achievement
  | kpi :: rest, achievement =>
    if kpi.targetValue ≠ 0 then
      kpiLoop rest (recordSet achievement kpi.name (kpi.currentValue / kpi.targetValue))
    else
      kpiLoop rest (recordSet achievement kpi.name kpi.currentValue)

/-- `GrantMetrics.calculateKPIAchievement` (lines 87–99): build a
`Record<string, number>` mapping each KPI name to `currentValue /
targetValue`, or to `currentValue` itself when `targetValue === 0`. -/
def calculateKPIAchievement (kpis : List KPI) : List (String × ℚ) :=
  kpiLoop kpis []

/-- Milliseconds per day, the source's `1000 * 60 * 60 * 24`. -/
def msPerDay : ℚ := 1000 * 60 * 60 * 24

/-- `GrantMetrics.calculateProgress` (lines 23–69).  The method's body
contains no `throw`, so the embedding returns `.ok` on every path; `now` is
the source's `new Date()`. -/
def calculateProgress (grant : Grant) (now : JSDate) :
    Except String GrantProgressMetrics :=
  let startDate := grant.startDate
  let endDate := grant.endDate
  let totalDays : ℤ := ⌈(endDate - startDate) / msPerDay⌉
  let daysElapsed : ℤ := ⌈(now - startDate) / msPerDay⌉
  let timelineProgress := jsMin (jsMax (jsDiv (daysElapsed : ℚ) (totalDays : ℚ)) (.num 0)) (.num 1)
  let totalFunding := grant.totalFunding
  let fundsUtilized := grant.expenditures.foldl (fun sum exp => sum + exp.amount) 0
  let utilizationRate := if totalFunding > 0 then fundsUtilized / totalFunding else 0
  let totalMilestones := grant.milestones.length
  let milestonesCompleted :=
    (grant.milestones.filter (fun m => m.status = MilestoneStatus.completed)).length
  let milestoneCompletionRate : ℚ :=
    if totalMilestones > 0 then (milestonesCompleted : ℚ) / (totalMilestones : ℚ) else 0
  let riskLevel :=
    calculateRiskLevel timelineProgress (.num utilizationRate) (.num milestoneCompletionRate)
  let kpiAchievement := calculateKPIAchievement grant.kpis
  .ok
    { grantId := grant.id
      totalFunding := totalFunding
      fundsUtilized := fundsUtilized
      utilizationRate := utilizationRate
      milestonesCompleted := milestonesCompleted
      totalMilestones := totalMilestones
      milestoneCompletionRate := milestoneCompletionRate
      daysElapsed := daysElapsed
      totalDays := totalDays
      timelineProgress := timelineProgress
      status := grant.status
      riskLevel := riskLevel
      kpiAchievement := kpiAchievement
      lastUpdated := now }

/-! ## Compliance evaluator (`src/metrics/ComplianceMetrics.ts`) -/

/-- Per-requirement status union
`'compliant' | 'non-compliant' | 'pending' | 'not-applicable'`. -/
inductive CStatus where
  | compliant | nonCompliant | pending | notApplicable
deriving DecidableEq, Repr

/-- Overall `ComplianceSummary.status` union
`'compliant' | 'at-risk' | 'non-compliant'`. -/
inductive OverallStatus where
  | compliant | atRisk | nonCompliant
deriving DecidableEq, Repr

/-- One evidence string pushed by a compliance checker, modelled structurally:
one constructor per `evidence.push(...)` site in the source, carrying the data
interpolated into the string there. -/
inductive Evidence where
  | docApproved (docType : String)
  | docMissing (docType : String)
  | utilizationExceeds (actual : JSNum) (maxRate : ℚ)
  | utilizationWithinRange (actual : JSNum) (maxRate : ℚ)
  | reportMissing (reportType : Option String)
  | reportSubmitted (reportType : String) (submissionDate : JSDate)
  | kpiBelowMinimum (name : String) (achievement minRate : ℚ)
  | kpiAchieved (name : String) (achievement : ℚ)
deriving DecidableEq, Repr

/-- The `ComplianceStatus` interface. -/
structure ComplianceStatus where
  requirementId : String
  requirementName : String
  description : String
  status : CStatus
  evidence : List Evidence
  lastChecked : JSDate
  dueDate : Option JSDate
  severity : Severity
deriving DecidableEq, Repr

/-- The `ComplianceSummary` interface. -/
structure ComplianceSummary where
  grantId : String
  totalRequirements : ℕ
  compliantRequirements : ℕ
  nonCompliantRequirements : ℕ
  pendingRequirements : ℕ
  complianceRate : ℚ
  highPriorityIssues : ℕ
  mediumPriorityIssues : ℕ
  lowPriorityIssues : ℕ
  status : OverallStatus
  lastAssessment : JSDate
  requirements : List ComplianceStatus
deriving DecidableEq, Repr

/-- The loop of `checkDocumentation`: walk the required document types,
pushing evidence; the first type with no approved submission short-circuits to
`non-compliant`. -/
def checkDocumentationLoop (submittedDocs : List Document) :
    List String → List Evidence → CStatus × List Evidence
  | [], evidence => (.compliant, evidence)
  | doc :: rest, evidence =>
    match submittedDocs.find?
        (fun d => d.docType = doc ∧ d.status = DocumentStatus.approved) with
    | some _ => checkDocumentationLoop submittedDocs rest (evidence ++ [.docApproved doc])
    | none => (.nonCompliant, evidence ++ [.docMissing doc])

/-- `ComplianceMetrics.checkDocumentation` (lines 839–859): every document
type in `parameters.requiredDocuments` (default `[]` when the key or the bag
is absent — an empty array is truthy in JavaScript, so only `undefined` falls
back) must have a submitted document of that type with status `approved`.
The source's in-place `evidence.push` is modelled by returning the pushed
list. -/
def checkDocumentation (requirement : ComplianceRequirement) (grant : Grant) :
    CStatus × List Evidence :=
  let requiredDocs := (requirement.parameters.bind (·.requiredDocuments)).getD []
  let submittedDocs := grant.documents
  checkDocumentationLoop submittedDocs requiredDocs []

/-- The expenditure-sum reduction
`grant.expenditures.reduce((sum, exp) => sum + exp.amount, 0)`, shared by
`calculateProgress` and `checkFinancial`; it sums ALL expenditures regardless
of approval status. -/
def sumExpenditures (grant : Grant) : ℚ :=
  grant.expenditures.foldl (fun sum exp => sum + exp.amount) 0

/-- `ComplianceMetrics.checkFinancial` (lines 861–877): divide the sum of all
expenditure amounts by `totalFunding` (JavaScript division — `Infinity`/`NaN`
when `totalFunding` is `0`) and compare against
`parameters.maxUtilizationRate || 1.0`. -/
def checkFinancial (requirement : ComplianceRequirement) (grant : Grant) :
    CStatus × List Evidence :=
  let maxUtilization := falsyOrQ (requirement.parameters.bind (·.maxUtilizationRate)) 1
  let actualUtilization := jsDiv (sumExpenditures grant) grant.totalFunding
  if jsGtJS actualUtilization (.num maxUtilization) then
    (.nonCompliant, [.utilizationExceeds actualUtilization maxUtilization])
  else
    (.compliant, [.utilizationWithinRange actualUtilization maxUtilization])

/-- `ComplianceMetrics.checkReporting` (lines 879–904): only when `dueDate`
is set and already past, require a report of `parameters.reportType` submitted
on or before the due date.  A report matches `r.type ===
parameters?.reportType` — when the parameter is absent no report matches
(comparison with `undefined`). -/
def checkReporting (requirement : ComplianceRequirement) (grant : Grant)
    (now : JSDate) : CStatus × List Evidence :=
  let reportTypeParam := requirement.parameters.bind (·.reportType)
  match requirement.dueDate with
  | some dueDate =>
    if dueDate < now then
      match grant.reports.find?
          (fun r =>
            (match reportTypeParam with
             | some rt => decide (r.repType = rt)
             | none => false) &&
            decide (r.submissionDate ≤ dueDate)) with
      | none => (.nonCompliant, [.reportMissing reportTypeParam])
      | some requiredReport =>
        (.compliant, [.reportSubmitted requiredReport.repType requiredReport.submissionDate])
    else (.compliant, [])
  | none => (.compliant, [])

/-- The loop of `checkPerformance`: KPIs with a zero target are skipped; the
first KPI with achievement strictly below the minimum short-circuits to
`non-compliant`. -/
def checkPerformanceLoop (minAchievement : ℚ) :
    List KPI → List Evidence → CStatus × List Evidence
  | [], evidence => (.compliant, evidence)
  | kpi :: rest, evidence =>
    if kpi.targetValue ≠ 0 then
      let achievement := kpi.currentValue / kpi.targetValue
      if achievement < minAchievement then
        (.nonCompliant, evidence ++ [.kpiBelowMinimum kpi.name achievement minAchievement])
      else
        checkPerformanceLoop minAchievement rest (evidence ++ [.kpiAchieved kpi.name achievement])
    else
      checkPerformanceLoop minAchievement rest evidence

/-- `ComplianceMetrics.checkPerformance` (lines 906–926): every KPI with a
nonzero target must achieve at least `parameters.minAchievementRate || 0.8`. -/
def checkPerformance (requirement : ComplianceRequirement) (grant : Grant) :
    CStatus × List Evidence :=
  let minAchievement := falsyOrQ (requirement.parameters.bind (·.minAchievementRate)) (8/10)
  checkPerformanceLoop minAchievement grant.kpis []

/-- `ComplianceMetrics.evaluateRequirement` (lines 787–837): a requirement
whose `applicableFrom` lies strictly in the future is `not-applicable` with
empty evidence; otherwise dispatch on the requirement type.  (The source's
`default: 'pending'` switch arm is unreachable: the `type` union has exactly
the four dispatched cases.) -/
def evaluateRequirement (requirement : ComplianceRequirement) (grant : Grant)
    (now : JSDate) : ComplianceStatus :=
  if (match requirement.applicableFrom with
      | some applicableFrom => decide (applicableFrom > now)
      | none => false) then
    { requirementId := requirement.id
      requirementName := requirement.name
      description := requirement.description
      status := .notApplicable
      evidence := []
      lastChecked := now
      dueDate := requirement.dueDate
      severity := requirement.severity }
  else
    let result :=
      match requirement.reqType with
      | .docs => checkDocumentation requirement grant
      | .financial => checkFinancial requirement grant
      | .reporting => checkReporting requirement grant now
      | .performance => checkPerformance requirement grant
    { requirementId := requirement.id
      requirementName := requirement.name
      description := requirement.description
      status := result.1
      evidence := result.2
      lastChecked := now
      dueDate := requirement.dueDate
      severity := requirement.severity }

/-- The accumulator of `assessCompliance`'s requirement loop: the statuses
pushed so far and the six counters. -/
structure AssessAcc where
  statuses : List ComplianceStatus
  compliantCount : ℕ
  nonCompliantCount : ℕ
  pendingCount : ℕ
  highPriority : ℕ
  mediumPriority : ℕ
  lowPriority : ℕ
deriving DecidableEq, Repr

/-- One iteration of `assessCompliance`'s loop over the requirements: push the
evaluated status and bump the counters its `switch` selects (the severity
counters are only touched in the `non-compliant` arm; `not-applicable` falls
through every `case` and touches no counter). -/
def assessStep (grant : Grant) (now : JSDate) (acc : AssessAcc)
    (requirement : ComplianceRequirement) : AssessAcc :=
  let status := evaluateRequirement requirement grant now
  { statuses := acc.statuses ++ [status]
    compliantCount := acc.compliantCount + (if status.status = .compliant then 1 else 0)
    nonCompliantCount := acc.nonCompliantCount + (if status.status = .nonCompliant then 1 else 0)
    pendingCount := acc.pendingCount + (if status.status = .pending then 1 else 0)
    highPriority := acc.highPriority +
      (if status.status = .nonCompliant ∧ status.severity = .high then 1 else 0)
    mediumPriority := acc.mediumPriority +
      (if status.status = .nonCompliant ∧ status.severity = .medium then 1 else 0)
    lowPriority := acc.lowPriority +
      (if status.status = .nonCompliant ∧ status.severity = .low then 1 else 0) }

/-- `ComplianceMetrics.assessCompliance` (lines 726–785): evaluate every
requirement, count outcomes, compute the compliance rate (`1` for an empty
requirement list) and classify the overall status. -/
def assessCompliance (grant : Grant) (requirements : List ComplianceRequirement)
    (now : JSDate) : ComplianceSummary :=
  let acc := requirements.foldl (assessStep grant now)
    { statuses := [], compliantCount := 0, nonCompliantCount := 0, pendingCount := 0
      highPriority := 0, mediumPriority := 0, lowPriority := 0 }
  let totalRequirements := requirements.length
  let complianceRate : ℚ :=
    if totalRequirements > 0 then (acc.compliantCount : ℚ) / (totalRequirements : ℚ) else 1
  let overallStatus : OverallStatus :=
    if acc.nonCompliantCount > 0 then
      if acc.highPriority > 0 then .nonCompliant else .atRisk
    else if (acc.pendingCount : ℚ) > (totalRequirements : ℚ) * (3/10) then .atRisk
    else .compliant
  { grantId := grant.id
    totalRequirements := totalRequirements
    compliantRequirements := acc.compliantCount
    nonCompliantRequirements := acc.nonCompliantCount
    pendingRequirements := acc.pendingCount
    complianceRate := complianceRate
    highPriorityIssues := acc.highPriority
    mediumPriorityIssues := acc.mediumPriority
    lowPriorityIssues := acc.lowPriority
    status := overallStatus
    lastAssessment := now
    requirements := acc.statuses }

/-! ## Concrete fixtures used by counterexamples and witnesses -/

/-- A concrete address. -/
def addressEx : Address :=
  { street := "1 Main St", city := "Springfield", state := "IL"
    postalCode := "62701", country := "US" }

/-- A concrete contact. -/
def contactEx : Contact :=
  { name := "Ada", email := "ada@example.org", phone := "555-0100", role := "PI" }

/-- A concrete organization. -/
def orgEx : Organization :=
  { id := "org-1", name := "Example Org", orgType := .nonProfit, taxId := none
    address := addressEx, contact := contactEx, registrationDate := 0 }

/-- A baseline grant with empty collections, zero funding and a degenerate
timeline, varied per scenario with record updates. -/
def grantBase : Grant :=
  { id := "g-1", grantNumber := "GR-2023-001", title := "Grant", description := ""
    grantType := .federal, status := .active
    totalFunding := 0, awardedAmount := 0, matchingRequirement := none
    fundingSource := "", grantManager := ""
    applicationDate := 0, awardDate := 0, startDate := 0, endDate := 0
    reportingFrequency := .quarterly
    recipient := orgEx, grantor := orgEx
    objectives := [], targetBeneficiaries := "", geographicScope := ""
    milestones := [], expenditures := [], kpis := [], documents := []
    reports := [], complianceRequirements := []
    createdBy := "", createdAt := 0, updatedBy := "", updatedAt := 0
    version := 1, tags := [], history := [] }

/-- A concrete milestone. -/
def milestoneEx : Milestone :=
  { id := "m-1", name := "Kickoff", description := "", dueDate := 10
    completionDate := none, status := .pending, deliverables := [], dependencies := none }

/-- A concrete expenditure of a given amount and approval status. -/
def expenditureEx (amount : ℚ) (status : ExpenditureStatus) : Expenditure :=
  { id := "e-1", date := 1, category := "supplies", description := ""
    amount := amount, receiptUrl := none, status := status
    approvedBy := none, approvedDate := none }

/-- A grant whose timeline is inverted: `endDate ≤ startDate`. -/
def invertedGrant : Grant :=
  { grantBase with startDate := 1000000, endDate := 0 }

/-! ## C1 — `calculateProgress` and the inverted timeline -/

/-- **C1, counterexample.**  The claim says `calculateProgress` fails with
`InvalidGrantError` whenever `endDate ≤ startDate`.  On the concrete grant
`invertedGrant` (whose `endDate = 0` precedes its `startDate = 1000000`) the
method returns an ordinary `GrantProgressMetrics` record: its body performs no
timeline validation and contains no `throw` at all. -/
theorem calculateProgress_inverted_no_error :
    invertedGrant.endDate ≤ invertedGrant.startDate ∧
    (calculateProgress invertedGrant 0).isOk = true := by
  constructor
  · norm_num [invertedGrant, grantBase]
  · rfl

/-- **C1, amended.**  `calculateProgress` never fails: for every grant —
whether or not its timeline is inverted — it returns a
`GrantProgressMetrics` record; no `InvalidGrantError` is raised anywhere. -/
theorem calculateProgress_total (grant : Grant) (now : JSDate) :
    (calculateProgress grant now).isOk = true := rfl

/-! ## C2 — Grant mutation methods, version counter and audit history -/

/-- **C2, counterexample.**  The claim says every mutation method appends
exactly one audit-history entry in the same step as its state change.  On the
concrete baseline grant, `addMilestone` applies its state change (the
milestone is appended) and bumps `version`, yet the history is left empty:
no entry is appended. -/
theorem addMilestone_appends_no_history :
    grantBase.history = [] ∧
    (grantBase.addMilestone milestoneEx 5).milestones = [milestoneEx] ∧
    (grantBase.addMilestone milestoneEx 5).version = grantBase.version + 1 ∧
    (grantBase.addMilestone milestoneEx 5).history = [] := by
  refine ⟨rfl, rfl, rfl, rfl⟩

/-- **C2, amended.**  Each mutation method applies its state change and bumps
the version counter by one (hence strictly monotonically) in the same step,
and never rewrites or removes existing history entries; but only
`updateStatus` appends an audit-history entry (exactly one), while
`addMilestone` and `addExpenditure` append none. -/
theorem grant_mutators_version_history (g : Grant) (m : Milestone)
    (e : Expenditure) (newStatus : GrantStatus) (user : String) (now : JSDate) :
    (g.addMilestone m now).milestones = g.milestones ++ [m] ∧
    (g.addMilestone m now).version = g.version + 1 ∧
    g.version < (g.addMilestone m now).version ∧
    (g.addMilestone m now).history = g.history ∧
    (g.addExpenditure e now).expenditures = g.expenditures ++ [e] ∧
    (g.addExpenditure e now).version = g.version + 1 ∧
    g.version < (g.addExpenditure e now).version ∧
    (g.addExpenditure e now).history = g.history ∧
    (g.updateStatus newStatus user now).status = newStatus ∧
    (g.updateStatus newStatus user now).version = g.version + 1 ∧
    g.version < (g.updateStatus newStatus user now).version ∧
    (g.updateStatus newStatus user now).history =
      g.history ++
        [{ date := now, action := "STATUS_CHANGE", user := user
           changes := ChangeRecord.statusChange g.status newStatus }] := by
  refine ⟨rfl, rfl, ?_, rfl, rfl, rfl, ?_, rfl, rfl, rfl, ?_, rfl⟩ <;>
    simp [Grant.addMilestone, Grant.addExpenditure, Grant.updateStatus]

/-! ## C8 — requirements whose `applicableFrom` lies in the future -/

/-- **C8.**  If a requirement's `applicableFrom` is set and lies strictly
after the evaluation instant, `evaluateRequirement` returns status
`not-applicable` with empty evidence, regardless of the requirement's type
and parameters and of the grant's data. -/
theorem evaluateRequirement_future_not_applicable
    (requirement : ComplianceRequirement) (grant : Grant) (now : JSDate)
    (applicableFrom : JSDate)
    (hset : requirement.applicableFrom = some applicableFrom)
    (hfut : applicableFrom > now) :
    (evaluateRequirement requirement grant now).status = .notApplicable ∧
    (evaluateRequirement requirement grant now).evidence = [] := by
  unfold evaluateRequirement
  rw [hset]
  simp [hfut]

/-- A concrete requirement applicable only from instant `10` (a documentation
requirement with a required document the grant does not have, so any evaluated
status other than `not-applicable` would be `non-compliant`). -/
def reqFutureEx : ComplianceRequirement :=
  { id := "r-f", name := "Future rule", description := "", reqType := .docs
    severity := .high, applicableFrom := some 10, dueDate := none
    parameters := some { requiredDocuments := some ["budget"]
                         maxUtilizationRate := none, reportType := none
                         minAchievementRate := none } }

/-- **C8, witness.**  The concrete requirement `reqFutureEx` evaluated at
instant `0` (before its `applicableFrom = 10`). -/
theorem evaluateRequirement_future_witness :
    (evaluateRequirement reqFutureEx grantBase 0).status = .notApplicable ∧
    (evaluateRequirement reqFutureEx grantBase 0).evidence = [] :=
  evaluateRequirement_future_not_applicable reqFutureEx grantBase 0 10 rfl
    (by norm_num)

/-! ## C3 — risk classification -/

/-- The risk classification as the spec words it (§4.1): compute the two
deviations `|timelineProgress − milestoneCompletionRate|` and
`|timelineProgress − utilizationRate|`, average them into a `riskScore`, and
classify `< 0.20 → low`, `< 0.40 → medium`, otherwise `high`.  Stated over
exact rationals, for comparison with the source's `calculateRiskLevel`. -/
def riskLevelSpec (timelineProgress utilizationRate milestoneCompletionRate : ℚ) :
    RiskLevel :=
  let riskScore :=
    (|timelineProgress - milestoneCompletionRate| +
     |timelineProgress - utilizationRate|) / 2
  if riskScore < 2/10 then .low
  else if riskScore < 4/10 then .medium
  else .high

/-- **C3.**  On every triple of (finite) numbers, the source's
`calculateRiskLevel` computes exactly the spec's classification: the mean of
the two absolute deviations, cut at `0.20` and `0.40`.  Both sides are plain
functions of the triple, so equal triples always receive equal risk levels. -/
theorem calculateRiskLevel_eq_spec
    (timelineProgress utilizationRate milestoneCompletionRate : ℚ) :
    calculateRiskLevel (.num timelineProgress) (.num utilizationRate)
        (.num milestoneCompletionRate) =
      riskLevelSpec timelineProgress utilizationRate milestoneCompletionRate := by
  simp only [calculateRiskLevel, riskLevelSpec, jsSubJS, jsAbs, jsAddJS, jsDivJS,
    jsDiv, jsLtJS]
  norm_num

/-! ## C5 and C10 — the financial compliance check -/

/-- The effective maximum utilization rate of a financial requirement:
`parameters?.maxUtilizationRate || 1.0` (the JavaScript `||` also replaces a
present-but-zero rate by the default). -/
def effectiveMaxRate (requirement : ComplianceRequirement) : ℚ :=
  falsyOrQ (requirement.parameters.bind (·.maxUtilizationRate)) 1

/-- **C5, amended.**  For every financial requirement and every grant with
nonzero total funding, `checkFinancial` computes the utilization as the sum of
ALL expenditure amounts (approved or not) divided by `totalFunding` and
returns `non-compliant` exactly when that quotient strictly exceeds the
effective maximum rate — `parameters.maxUtilizationRate` when present and
nonzero, else the default `1.0` (the JavaScript `||` default also fires on a
present rate equal to `0`) — and `compliant` otherwise. -/
theorem checkFinancial_threshold (requirement : ComplianceRequirement)
    (grant : Grant) (hfund : grant.totalFunding ≠ 0) :
    ((checkFinancial requirement grant).1 = .nonCompliant ↔
      sumExpenditures grant / grant.totalFunding > effectiveMaxRate requirement) ∧
    ((checkFinancial requirement grant).1 = .compliant ↔
      ¬ sumExpenditures grant / grant.totalFunding > effectiveMaxRate requirement) := by
  by_cases h : falsyOrQ (requirement.parameters.bind fun p => p.maxUtilizationRate) 1 <
      sumExpenditures grant / grant.totalFunding <;>
    simp [checkFinancial, effectiveMaxRate, jsDiv, hfund, jsGtJS, jsLtJS, h]

/-- A financial requirement with `maxUtilizationRate = 0.9` (the spec's §8
scenario). -/
def reqFin09 : ComplianceRequirement :=
  { id := "r-fin", name := "Utilization cap", description := ""
    reqType := .financial, severity := .medium, applicableFrom := none
    dueDate := none
    parameters := some { requiredDocuments := none
                         maxUtilizationRate := some (9/10)
                         reportType := none, minAchievementRate := none } }

/-- A grant with total funding `100000` and a single UNAPPROVED expenditure of
`95000`. -/
def grantNinetyFive : Grant :=
  { grantBase with
    totalFunding := 100000
    expenditures := [expenditureEx 95000 .pending] }

/-- **C5, witness** (the spec's own scenario): total funding `100000`,
all-expenditure sum `95000` with the expenditure not approved, cap `0.9` —
the quotient `0.95` exceeds the cap, so the requirement is `non-compliant`. -/
theorem checkFinancial_threshold_witness :
    grantNinetyFive.totalFunding ≠ 0 ∧
    (checkFinancial reqFin09 grantNinetyFive).1 = .nonCompliant :=
  ⟨by norm_num [grantNinetyFive, grantBase],
   (checkFinancial_threshold reqFin09 grantNinetyFive
      (by norm_num [grantNinetyFive, grantBase])).1.mpr
     (by norm_num [sumExpenditures, grantNinetyFive, grantBase, expenditureEx,
        effectiveMaxRate, falsyOrQ, reqFin09])⟩

/-- A financial requirement whose parameter bag sets `maxUtilizationRate` to
the falsy number `0`. -/
def reqMaxZero : ComplianceRequirement :=
  { id := "r-mz", name := "Zero cap", description := ""
    reqType := .financial, severity := .medium, applicableFrom := none
    dueDate := none
    parameters := some { requiredDocuments := none
                         maxUtilizationRate := some 0
                         reportType := none, minAchievementRate := none } }

/-- A grant with total funding `2` and a single expenditure of `1`
(utilization `0.5`). -/
def grantHalf : Grant :=
  { grantBase with
    totalFunding := 2
    expenditures := [expenditureEx 1 .approved] }

/-- **C5, counterexample.**  The claim reads the cap as
`parameters.maxUtilizationRate`, defaulting to `1.0` only "when the parameter
is absent".  Here the parameter is present and equal to `0`, the utilization
`0.5` strictly exceeds it — so the claim requires `non-compliant` — yet the
source's `|| 1.0` default also fires on the falsy value `0`, compares `0.5 >
1.0` instead, and returns `compliant`. -/
theorem checkFinancial_zero_max_rate_counterexample :
    reqMaxZero.parameters.bind (·.maxUtilizationRate) = some 0 ∧
    sumExpenditures grantHalf / grantHalf.totalFunding > 0 ∧
    (checkFinancial reqMaxZero grantHalf).1 = .compliant := by
  refine ⟨rfl, ?_, ?_⟩
  · norm_num [sumExpenditures, grantHalf, grantBase, expenditureEx]
  · norm_num [checkFinancial, sumExpenditures, grantHalf, grantBase, expenditureEx,
      falsyOrQ, reqMaxZero, jsDiv, jsGtJS, jsLtJS]

/-- **C10.**  `checkFinancial` divides by `totalFunding` with no zero guard,
yet always returns a status.  With `totalFunding = 0`: a positive
all-expenditure sum makes the quotient `Infinity`, which strictly exceeds any
(finite) effective maximum rate, so the result is `non-compliant`; a zero sum
makes the quotient `NaN`, whose comparison against the maximum is `false`, so
the result is `compliant`. -/
theorem checkFinancial_zero_funding (requirement : ComplianceRequirement)
    (grant : Grant) (hzero : grant.totalFunding = 0) :
    (sumExpenditures grant > 0 →
      (checkFinancial requirement grant).1 = .nonCompliant) ∧
    (sumExpenditures grant = 0 →
      (checkFinancial requirement grant).1 = .compliant) := by
  constructor
  · intro hpos
    simp [checkFinancial, jsDiv, hzero, hpos, jsGtJS, jsLtJS]
  · intro hsum
    simp [checkFinancial, jsDiv, hzero, hsum, jsGtJS, jsLtJS]

/-- A financial requirement with an empty parameter bag. -/
def reqFinPlain : ComplianceRequirement :=
  { id := "r-fp", name := "Utilization", description := ""
    reqType := .financial, severity := .low, applicableFrom := none
    dueDate := none, parameters := none }

/-- A grant with zero total funding and one expenditure of `5`. -/
def grantZeroFundSpend : Grant :=
  { grantBase with
    totalFunding := 0
    expenditures := [expenditureEx 5 .pending] }

/-- **C10, witness.**  With total funding `0`: the grant with expenditure sum
`5` is `non-compliant` (`Infinity` exceeds the default cap `1.0`), and the
baseline grant with no expenditures is `compliant` (`NaN` compares false). -/
theorem checkFinancial_zero_funding_witness :
    (checkFinancial reqFinPlain grantZeroFundSpend).1 = .nonCompliant ∧
    (checkFinancial reqFinPlain grantBase).1 = .compliant :=
  ⟨(checkFinancial_zero_funding reqFinPlain grantZeroFundSpend rfl).1
      (by norm_num [sumExpenditures, grantZeroFundSpend, grantBase, expenditureEx]),
   (checkFinancial_zero_funding reqFinPlain grantBase rfl).2 rfl⟩

/-! ## C9 — documentation requirements are monotonic in the document set -/

/-- `checkDocumentationLoop` reaches `compliant` exactly when every required
document type has a submitted document of that type with status `approved`. -/
lemma checkDocumentationLoop_compliant_iff (submittedDocs : List Document)
    (required : List String) (evidence : List Evidence) :
    (checkDocumentationLoop submittedDocs required evidence).1 = .compliant ↔
      ∀ t ∈ required, ∃ d ∈ submittedDocs,
        d.docType = t ∧ d.status = DocumentStatus.approved := by
  induction required generalizing evidence with
  | nil => simp [checkDocumentationLoop]
  | cons t rest ih =>
    simp only [checkDocumentationLoop]
    cases hfind : submittedDocs.find?
        (fun d => decide (d.docType = t ∧ d.status = DocumentStatus.approved)) with
    | none =>
      simp only
      constructor
      · intro h
        exact absurd h (by simp)
      · intro h
        obtain ⟨d, hd, hp⟩ := h t (List.mem_cons_self t rest)
        have hnone := List.find?_eq_none.mp hfind d hd
        rw [decide_eq_true_eq] at hnone
        exact absurd hp hnone
    | some d₀ =>
      have hmem := List.mem_of_find?_eq_some hfind
      have hp := List.find?_some hfind
      rw [decide_eq_true_eq] at hp
      rw [ih]
      constructor
      · intro h t₁ ht₁
        rcases List.mem_cons.mp ht₁ with h₁ | h₂
        · subst h₁
          exact ⟨d₀, hmem, hp⟩
        · exact h t₁ h₂
      · intro h t₁ ht₁
        exact h t₁ (List.mem_cons_of_mem t ht₁)

/-- `checkDocumentationLoop` only ever returns `compliant` or
`non-compliant`. -/
lemma checkDocumentationLoop_result (submittedDocs : List Document)
    (required : List String) (evidence : List Evidence) :
    (checkDocumentationLoop submittedDocs required evidence).1 = .compliant ∨
    (checkDocumentationLoop submittedDocs required evidence).1 = .nonCompliant := by
  induction required generalizing evidence with
  | nil => left; rfl
  | cons t rest ih =>
    simp only [checkDocumentationLoop]
    cases hfind : submittedDocs.find?
        (fun d => decide (d.docType = t ∧ d.status = DocumentStatus.approved)) with
    | none => right; rfl
    | some d₀ => exact ih _

/-- **C9.**  Documentation-requirement evaluation is monotonic in the document
set: appending an approved document whose type is among
`parameters.requiredDocuments` preserves `compliant` (so the status can only
move from `non-compliant` to `compliant` or stay put — the checker's only
outcomes are those two), and an empty or absent required-document list
evaluates to `compliant`. -/
theorem checkDocumentation_monotonic (requirement : ComplianceRequirement)
    (grant : Grant) (d : Document)
    (happroved : d.status = DocumentStatus.approved)
    (hrequired : d.docType ∈ (requirement.parameters.bind (·.requiredDocuments)).getD []) :
    ((checkDocumentation requirement grant).1 = .compliant →
      (checkDocumentation requirement
        { grant with documents := grant.documents ++ [d] }).1 = .compliant) ∧
    ((checkDocumentation requirement grant).1 = .compliant ∨
      (checkDocumentation requirement grant).1 = .nonCompliant) ∧
    ((requirement.parameters.bind (·.requiredDocuments)).getD [] = [] →
      (checkDocumentation requirement grant).1 = .compliant) := by
  refine ⟨?_, ?_, ?_⟩
  · intro h
    rw [checkDocumentation, checkDocumentationLoop_compliant_iff] at h
    rw [checkDocumentation]
    simp only
    rw [checkDocumentationLoop_compliant_iff]
    intro t ht
    obtain ⟨d₁, hd₁, hp₁⟩ := h t ht
    exact ⟨d₁, List.mem_append_left _ hd₁, hp₁⟩
  · exact checkDocumentationLoop_result _ _ _
  · intro hempty
    rw [checkDocumentation, hempty]
    rfl

/-- An approved budget document. -/
def docBudget : Document :=
  { id := "d-1", docType := "budget", name := "Budget", url := "u1"
    uploadDate := 0, uploadedBy := "ada", status := .approved, reviewNotes := none }

/-- A second approved budget document. -/
def docBudgetBis : Document :=
  { id := "d-2", docType := "budget", name := "Budget v2", url := "u2"
    uploadDate := 1, uploadedBy := "ada", status := .approved, reviewNotes := none }

/-- A documentation requirement demanding an approved `budget` document. -/
def reqDocsEx : ComplianceRequirement :=
  { id := "r-doc", name := "Required docs", description := "", reqType := .docs
    severity := .high, applicableFrom := none, dueDate := none
    parameters := some { requiredDocuments := some ["budget"]
                         maxUtilizationRate := none, reportType := none
                         minAchievementRate := none } }

/-- A grant already holding one approved budget document. -/
def grantWithBudget : Grant := { grantBase with documents := [docBudget] }

/-- **C9, witness.**  Appending a second approved budget document to a grant
that is already compliant with `reqDocsEx` keeps it compliant. -/
theorem checkDocumentation_monotonic_witness :
    (checkDocumentation reqDocsEx
      { grantWithBudget with
        documents := grantWithBudget.documents ++ [docBudgetBis] }).1 = .compliant :=
  (checkDocumentation_monotonic reqDocsEx grantWithBudget docBudgetBis rfl
    (by decide)).1 (by decide)

/-! ## C6 — the KPI achievement map -/

/-- `List.lookup` after a `recordSet` write: the written key reads back the
written value, any other key is unaffected. -/
lemma lookup_recordSet (acc : List (String × ℚ)) (k k₁ : String) (v : ℚ) :
    (recordSet acc k v).lookup k₁ = if k₁ = k then some v else acc.lookup k₁ := by
  induction acc with
  | nil =>
    by_cases h : k₁ = k
    · simp [recordSet, List.lookup, h]
    · have hb : (k₁ == k) = false := beq_eq_false_iff_ne.mpr h
      simp [recordSet, List.lookup, hb, h]
  | cons p rest ih =>
    obtain ⟨k₀, v₀⟩ := p
    by_cases h₀ : k₀ = k
    · subst h₀
      by_cases h : k₁ = k₀
      · simp [recordSet, List.lookup, h]
      · have hb : (k₁ == k₀) = false := beq_eq_false_iff_ne.mpr h
        simp [recordSet, List.lookup, hb, h]
    · by_cases h : k₁ = k₀
      · subst h
        have hne : ¬ k₁ = k := fun hk => h₀ (hk ▸ rfl)
        simp [recordSet, List.lookup, h₀, hne]
      · have hb : (k₁ == k₀) = false := beq_eq_false_iff_ne.mpr h
        simp [recordSet, List.lookup, h₀, hb, h, ih]

/-- Keys not named by any KPI in the list are untouched by `kpiLoop`. -/
lemma kpiLoop_lookup_not_mem (kpis : List KPI) (acc : List (String × ℚ))
    (k : String) (hk : k ∉ kpis.map KPI.name) :
    (kpiLoop kpis acc).lookup k = acc.lookup k := by
  induction kpis generalizing acc with
  | nil => rfl
  | cons kpi rest ih =>
    simp only [List.map_cons, List.mem_cons, not_or] at hk
    by_cases ht : kpi.targetValue ≠ 0 <;>
      simp [kpiLoop, ht, ih _ hk.2, lookup_recordSet, hk.1]

/-- Looking up a KPI's name after the full loop, when no two KPIs share a
name, returns the value computed from that KPI. -/
lemma kpiLoop_lookup (kpis : List KPI) (acc : List (String × ℚ))
    (hnd : (kpis.map KPI.name).Nodup) (kpi : KPI) (hmem : kpi ∈ kpis) :
    (kpiLoop kpis acc).lookup kpi.name =
      some (if kpi.targetValue ≠ 0 then kpi.currentValue / kpi.targetValue
            else kpi.currentValue) := by
  induction kpis generalizing acc with
  | nil => cases hmem
  | cons kpi₀ rest ih =>
    rw [List.map_cons, List.nodup_cons] at hnd
    rcases List.mem_cons.mp hmem with h₁ | h₂
    · subst h₁
      by_cases ht : kpi.targetValue ≠ 0 <;>
        simp [kpiLoop, ht, kpiLoop_lookup_not_mem _ _ _ hnd.1, lookup_recordSet]
    · by_cases ht : kpi₀.targetValue ≠ 0 <;>
        simp [kpiLoop, ht, ih _ hnd.2 h₂]

/-- **C6, amended.**  For every KPI list in which no two KPIs share a name,
the `kpiAchievement` record maps each KPI's name to `currentValue /
targetValue` when `targetValue ≠ 0` and to `currentValue` itself when
`targetValue = 0` (when names repeat, the record retains only the last
KPI's value for that name).  In this exact-arithmetic model every entry is a
well-defined rational — the zero-target guard removes the only division that
could produce `NaN`/`Infinity`. -/
theorem calculateKPIAchievement_per_kpi (kpis : List KPI)
    (hnd : (kpis.map KPI.name).Nodup) :
    ∀ kpi ∈ kpis,
      (calculateKPIAchievement kpis).lookup kpi.name =
        some (if kpi.targetValue ≠ 0 then kpi.currentValue / kpi.targetValue
              else kpi.currentValue) :=
  fun kpi hmem => kpiLoop_lookup kpis [] hnd kpi hmem

/-- A KPI named `a` with target `2`, current `1`. -/
def kpiDupFirst : KPI := { name := "a", targetValue := 2, currentValue := 1 }

/-- A second KPI also named `a`, with target `2`, current `3`. -/
def kpiDupSecond : KPI := { name := "a", targetValue := 2, currentValue := 3 }

/-- **C6, counterexample.**  The claim assigns EVERY KPI with nonzero target
the ratio `currentValue / targetValue`.  With two KPIs that share the name
`a`, the record holds a single entry for `a` — the second KPI's ratio `3/2` —
so the first KPI (nonzero target, ratio `1/2`) is not assigned its ratio. -/
theorem calculateKPIAchievement_duplicate_counterexample :
    kpiDupFirst ∈ [kpiDupFirst, kpiDupSecond] ∧
    kpiDupFirst.targetValue ≠ 0 ∧
    (calculateKPIAchievement [kpiDupFirst, kpiDupSecond]).lookup kpiDupFirst.name ≠
      some (kpiDupFirst.currentValue / kpiDupFirst.targetValue) := by
  refine ⟨List.mem_cons_self _ _, by norm_num [kpiDupFirst], ?_⟩
  norm_num [calculateKPIAchievement, kpiLoop, recordSet, List.lookup,
    kpiDupFirst, kpiDupSecond]

/-- A KPI named `x` with target `2`, current `1`. -/
def kpiX : KPI := { name := "x", targetValue := 2, currentValue := 1 }

/-- A KPI named `y` with a zero target and current value `7`. -/
def kpiY : KPI := { name := "y", targetValue := 0, currentValue := 7 }

/-- **C6, witness.**  On the two distinctly-named KPIs `x` (target `2`,
current `1`) and `y` (target `0`, current `7`), the map assigns `x` its ratio
and `y` its raw current value. -/
theorem calculateKPIAchievement_per_kpi_witness :
    ((calculateKPIAchievement [kpiX, kpiY]).lookup kpiX.name =
      some (if kpiX.targetValue ≠ 0 then kpiX.currentValue / kpiX.targetValue
            else kpiX.currentValue)) ∧
    ((calculateKPIAchievement [kpiX, kpiY]).lookup kpiY.name =
      some (if kpiY.targetValue ≠ 0 then kpiY.currentValue / kpiY.targetValue
            else kpiY.currentValue)) :=
  ⟨calculateKPIAchievement_per_kpi [kpiX, kpiY] (by decide) kpiX
      (List.mem_cons_self _ _),
   calculateKPIAchievement_per_kpi [kpiX, kpiY] (by decide) kpiY
      (by simp)⟩

/-! ## C4 and C7 — aggregation in `assessCompliance` -/

/-- Folding `assessStep` over a requirement list, relative to an arbitrary
starting accumulator: the statuses are appended in evaluation order and each
counter advances by the count of matching evaluated statuses. -/
lemma assess_foldl (grant : Grant) (now : JSDate)
    (requirements : List ComplianceRequirement) (acc : AssessAcc) :
    (requirements.foldl (assessStep grant now) acc).statuses =
        acc.statuses ++ requirements.map (fun r => evaluateRequirement r grant now) ∧
    (requirements.foldl (assessStep grant now) acc).compliantCount =
        acc.compliantCount +
          (requirements.map (fun r => evaluateRequirement r grant now)).countP
            (fun s => decide (s.status = CStatus.compliant)) ∧
    (requirements.foldl (assessStep grant now) acc).nonCompliantCount =
        acc.nonCompliantCount +
          (requirements.map (fun r => evaluateRequirement r grant now)).countP
            (fun s => decide (s.status = CStatus.nonCompliant)) ∧
    (requirements.foldl (assessStep grant now) acc).pendingCount =
        acc.pendingCount +
          (requirements.map (fun r => evaluateRequirement r grant now)).countP
            (fun s => decide (s.status = CStatus.pending)) ∧
    (requirements.foldl (assessStep grant now) acc).highPriority =
        acc.highPriority +
          (requirements.map (fun r => evaluateRequirement r grant now)).countP
            (fun s => decide (s.status = CStatus.nonCompliant ∧ s.severity = Severity.high)) ∧
    (requirements.foldl (assessStep grant now) acc).mediumPriority =
        acc.mediumPriority +
          (requirements.map (fun r => evaluateRequirement r grant now)).countP
            (fun s => decide (s.status = CStatus.nonCompliant ∧ s.severity = Severity.medium)) ∧
    (requirements.foldl (assessStep grant now) acc).lowPriority =
        acc.lowPriority +
          (requirements.map (fun r => evaluateRequirement r grant now)).countP
            (fun s => decide (s.status = CStatus.nonCompliant ∧ s.severity = Severity.low)) := by
  induction requirements generalizing acc with
  | nil => simp
  | cons r rest ih =>
    obtain ⟨h₁, h₂, h₃, h₄, h₅, h₆, h₇⟩ := ih (assessStep grant now acc r)
    simp only [List.foldl_cons]
    refine ⟨?_, ?_, ?_, ?_, ?_, ?_, ?_⟩
    · rw [h₁]
      simp [assessStep]
    · rw [h₂]
      simp only [assessStep, List.map_cons, List.countP_cons, decide_eq_true_eq]
      omega
    · rw [h₃]
      simp only [assessStep, List.map_cons, List.countP_cons, decide_eq_true_eq]
      omega
    · rw [h₄]
      simp only [assessStep, List.map_cons, List.countP_cons, decide_eq_true_eq]
      omega
    · rw [h₅]
      simp only [assessStep, List.map_cons, List.countP_cons, decide_eq_true_eq]
      omega
    · rw [h₆]
      simp only [assessStep, List.map_cons, List.countP_cons, decide_eq_true_eq]
      omega
    · rw [h₇]
      simp only [assessStep, List.map_cons, List.countP_cons, decide_eq_true_eq]
      omega

/-- **C4.**  The overall status computed by `assessCompliance` is:
`non-compliant` when some requirement evaluated `non-compliant` with severity
`high`; else `at-risk` when some requirement evaluated `non-compliant`; else
`at-risk` when the pending count exceeds `0.3 ×` the total requirement count;
else `compliant`. -/
theorem assessCompliance_overall_status (grant : Grant)
    (requirements : List ComplianceRequirement) (now : JSDate) :
    (assessCompliance grant requirements now).status =
      (if ∃ s ∈ requirements.map (fun r => evaluateRequirement r grant now),
            s.status = CStatus.nonCompliant ∧ s.severity = Severity.high then
         OverallStatus.nonCompliant
       else if ∃ s ∈ requirements.map (fun r => evaluateRequirement r grant now),
            s.status = CStatus.nonCompliant then
         OverallStatus.atRisk
       else if ((requirements.map (fun r => evaluateRequirement r grant now)).countP
              (fun s => decide (s.status = CStatus.pending)) : ℚ) >
            (requirements.length : ℚ) * (3/10) then
         OverallStatus.atRisk
       else OverallStatus.compliant) := by
  obtain ⟨-, -, h₃, h₄, h₅, -, -⟩ :=
    assess_foldl grant now requirements
      { statuses := [], compliantCount := 0, nonCompliantCount := 0, pendingCount := 0
        highPriority := 0, mediumPriority := 0, lowPriority := 0 }
  have hbH : (0 <
      (requirements.map (fun r => evaluateRequirement r grant now)).countP
        (fun s => decide (s.status = CStatus.nonCompliant ∧ s.severity = Severity.high))) ↔
      ∃ s ∈ requirements.map (fun r => evaluateRequirement r grant now),
        s.status = CStatus.nonCompliant ∧ s.severity = Severity.high := by
    rw [List.countP_pos_iff]
    simp only [decide_eq_true_eq]
  have hbC : (0 <
      (requirements.map (fun r => evaluateRequirement r grant now)).countP
        (fun s => decide (s.status = CStatus.nonCompliant))) ↔
      ∃ s ∈ requirements.map (fun r => evaluateRequirement r grant now),
        s.status = CStatus.nonCompliant := by
    rw [List.countP_pos_iff]
    simp only [decide_eq_true_eq]
  simp only [← hbH, ← hbC]
  simp only [assessCompliance, h₃, h₄, h₅, Nat.zero_add, gt_iff_lt]
  by_cases h₂ : 0 <
      (requirements.map (fun r => evaluateRequirement r grant now)).countP
        (fun s => decide (s.status = CStatus.nonCompliant ∧ s.severity = Severity.high))
  · have h₁ : 0 <
        (requirements.map (fun r => evaluateRequirement r grant now)).countP
          (fun s => decide (s.status = CStatus.nonCompliant)) :=
      lt_of_lt_of_le h₂
        (List.countP_mono_left (fun s _ hp => by
          rw [decide_eq_true_eq] at hp ⊢
          exact hp.1))
    simp only [if_pos h₁, if_pos h₂]
  · by_cases h₁ : 0 <
        (requirements.map (fun r => evaluateRequirement r grant now)).countP
          (fun s => decide (s.status = CStatus.nonCompliant))
    · simp only [if_pos h₁, if_neg h₂]
    · simp only [if_neg h₁, if_neg h₂]

/-- **C7.**  `assessCompliance` on an empty requirement list yields
`complianceRate = 1` and overall status `compliant`; on a nonempty list the
rate is the compliant count divided by the total requirement count. -/
theorem assessCompliance_complianceRate (grant : Grant)
    (requirements : List ComplianceRequirement) (now : JSDate) :
    (assessCompliance grant [] now).complianceRate = 1 ∧
    (assessCompliance grant [] now).status = OverallStatus.compliant ∧
    (requirements ≠ [] →
      (assessCompliance grant requirements now).complianceRate =
        ((requirements.map (fun r => evaluateRequirement r grant now)).countP
            (fun s => decide (s.status = CStatus.compliant)) : ℚ) /
          (requirements.length : ℚ)) := by
  refine ⟨?_, ?_, ?_⟩
  · simp [assessCompliance]
  · norm_num [assessCompliance]
  · intro hne
    obtain ⟨-, h₂, -, -, -, -, -⟩ :=
      assess_foldl grant now requirements
        { statuses := [], compliantCount := 0, nonCompliantCount := 0, pendingCount := 0
          highPriority := 0, mediumPriority := 0, lowPriority := 0 }
    have hlen : 0 < requirements.length := List.length_pos.mpr hne
    simp only [assessCompliance, h₂, Nat.zero_add]
    simp [hlen]

/-- **C7, witness.**  The general rate formula applied to the one-element
requirement list `[reqFinPlain]` on the baseline grant. -/
theorem assessCompliance_complianceRate_witness :
    (assessCompliance grantBase [reqFinPlain] 0).complianceRate =
      (([reqFinPlain].map (fun r => evaluateRequirement r grantBase 0)).countP
          (fun s => decide (s.status = CStatus.compliant)) : ℚ) /
        (([reqFinPlain] : List ComplianceRequirement).length : ℚ) :=
  (assessCompliance_complianceRate grantBase [reqFinPlain] 0).2.2 (by simp)
